import Mathlib

/-!
# Verification of `SecuML/core/Classification/Classifier.py`

A shallow embedding of the orchestration class `Classifier`. The class
sequences calls into an external modeling library (pipeline fit / predict /
predict_proba / decision_function, grid search, stratified k-fold), and into
repository monitoring helpers (`TrainingMonitoring`, `TestingMonitoring`,
`CvMonitoring`, `AlertsMonitoring`, `CvClassifierDatasets`) that are not part
of the analysed file.

Modelling conventions:
  * the external pipeline is an abstract state `σ` interpreted through a
    `PipelineSem σ` record of semantic functions; `fit` and `set_params`
    return a new state;
  * Python exceptions are `Except PyError`; an attribute that an external
    model object may lack (`feature_importances_`, `coef_`,
    `decision_function`) is an `Option`, with `none` meaning the access
    raises;
  * every call into the external library or a monitoring helper appends an
    `Event` to a trace, so that ordering and skipping of steps is provable;
  * floating point feature values and weights are represented by `Rat`; the
    file under analysis never computes with them, it only passes them
    through;
  * the monitoring classes live elsewhere in the repository, so they are
    modelled from the spec as recorders of the calls the `Classifier` makes
    into them ("compute per-fold monitoring statistics"): `initMonitorings`
    sets a flag, `addFold` / `addPredictions` append what they were given.
-/

namespace SecuML

/-- Feature matrix, the result of `instances.features.getValues()`. -/
abbrev Feat := List (List Rat)

/-- The Python exceptions that can be raised by code reachable from
`Classifier`: the custom guard exception, and built-in exceptions raised by
misuse of operators / missing attributes / bad indexing. -/
inductive PyError where
  | supervisedLearningAtLeastTwoClasses
  | typeError
  | attributeError
  | indexError
  deriving DecidableEq, Repr

/-- An instance set. `supervision gt fam` is
`instances.getAnnotations(gt).getSupervision(fam)`: the supervision vector
for the ground-truth flag `gt` and the `families_supervision` flag `fam`.
Class labels are coded as `Nat`. -/
structure Instances where
  ids : List Nat
  num_instances : Nat
  features : Feat
  supervision : Bool → Bool → List Nat

/-- Embedding of `sklearn.model_selection.StratifiedKFold(n_splits=...)`. -/
structure SKFold where
  n_splits : Nat
  deriving DecidableEq, Repr

/-- The repository `Predictions` object, holding the five constructor
arguments of `Predictions(predictions, all_predicted_proba, predicted_proba,
predicted_scores, ids)` plus the ground truth installed by
`setGroundTruth`. -/
structure Predictions where
  predictions : List Nat
  all_predicted_proba : List (List Rat)
  predicted_proba : List (Option Rat)
  predicted_scores : List Rat
  ids : List Nat
  ground_truth : Option (List Nat) := none
  deriving DecidableEq, Repr

/-- Embedding of `predictions.setGroundTruth(gt)`. -/
def Predictions.setGroundTruth (p : Predictions) (gt : List Nat) : Predictions :=
  { p with ground_truth := some gt }

/-- Modelled from the spec: the repository class
`Monitoring.TrainingMonitoring` is not part of the analysed file; it is
modelled as a recorder of the calls the classifier makes into it
(`initMonitorings`, then `addFold(fold_id, predictions, coefs)`). -/
structure TrainingMonitoringRec where
  inited : Bool := false
  folds : List (Nat × Predictions × List Rat) := []
  deriving DecidableEq, Repr

/-- Modelled from the spec: the repository class `Monitoring.CvMonitoring`
(constructed as `CvMonitoring(conf, num_folds)`) is not part of the analysed
file; it is modelled as a recorder of `initMonitorings` and
`addFold(fold_id, predictions, coefs)` calls. -/
structure CvMonitoringRec where
  num_folds : Nat
  inited : Bool := false
  folds : List (Nat × Predictions × List Rat) := []
  deriving DecidableEq, Repr

/-- Modelled from the spec: the repository class
`Monitoring.TestingMonitoring` is not part of the analysed file; it is
modelled as a recorder: `addPredictions` stores the predictions it was
given, read back by `generateAlerts` as `predictions_monitoring`. -/
structure TestingMonitoringRec where
  monitoring_type : String
  inited : Bool := false
  predictions_monitoring : Option Predictions := none
  deriving DecidableEq, Repr

/-- Modelled from the spec: the repository class
`Monitoring.AlertsMonitoring` (constructed as
`AlertsMonitoring(datasets, predictions, alerts_conf)`) is not part of the
analysed file; it is modelled as a record of the predictions it was built
from and whether `groupAlerts` was called. -/
structure AlertsMonitoringRec where
  predictions : Predictions
  grouped : Bool := false
  deriving DecidableEq, Repr

/-- The part of the test configuration read by `Classifier`:
`conf.test_conf.alerts_conf` (opaque, only its None-ness matters here). -/
structure TestConf where
  alerts_conf : Option Unit
  deriving DecidableEq, Repr

/-- The part of the classification configuration read by `Classifier`.
`featureImportance` models the method `conf.featureImportance()` (values
`'score'`, `'weight'` or neither), `param_grid` the method
`conf.getParamGrid()`, and `best_values` the state written by
`conf.setBestValues(grid_search)` and read by `conf.getBestValues()`. -/
structure Conf where
  num_folds : Nat
  families_supervision : Bool
  sample_weight : Bool
  n_jobs : Nat
  param_grid : Option (List (String × List Rat))
  featureImportance : Option String
  test_conf : TestConf
  best_values : List (String × Rat) := []
  deriving DecidableEq, Repr

/-- A dataset bundle as consumed by `Classifier`: train / test / optional
validation instances, an optional per-instance weight list, and
`getFeaturesNames()`. -/
structure Datasets where
  train_instances : Instances
  test_instances : Instances
  validation_instances : Option Instances
  sample_weight : Option (List Rat)
  features_names : List String

/-- Python truthiness of `datasets.sample_weight`: `None` and `[]` are
falsy, a non-empty list is truthy. -/
def pyTruthyList : Option (List Rat) → Bool
  | some (_ :: _) => true
  | _ => false

/-- Semantics of the external library pipeline over an abstract pipeline
state `σ`. `decision_function`, `feature_importances` and `coef` return
`none` when the underlying model does not provide the attribute (the access
raises). `fit` and `set_params` return the updated pipeline state; `fit`
receives the features, the supervision, and the optional
`model__sample_weight` keyword argument. -/
structure PipelineSem (σ : Type) where
  predict : σ → Feat → List Nat
  predict_proba : σ → Feat → List (List Rat)
  decision_function : σ → Feat → Option (List Rat)
  feature_importances : σ → Option (List Rat)
  coef : σ → Option (List (List Rat))
  classes : σ → List Nat
  fit : σ → Feat → List Nat → Option (List Rat) → σ
  set_params : σ → List (String × Rat) → σ

/-- One external call made by the classifier, recorded in a trace. -/
inductive Event where
  | stratifiedKFold (n_splits : Nat)
  | gridSearchFit (features : Feat) (supervision : List Nat)
      (sample_weight : Option (List Rat))
  | setParams (params : List (String × Rat))
  | pipelineFit (features : Feat) (supervision : List Nat)
      (sample_weight : Option (List Rat))
  | predict (features : Feat)
  | predictProba (features : Feat)
  | decisionFunction (features : Feat)
  | initTrainingMonitoring
  | addTrainingFold (fold_id : Nat)
  | initCvMonitoring
  | addCvFold (fold_id : Nat)
  | initTestingMonitoring (monitoring_type : String)
  | addPredictions (monitoring_type : String)
  | buildAlerts
  | groupAlerts
  deriving DecidableEq, Repr

/-- The external dependencies of the classifier: the pipeline semantics,
the best parameter values reported by a fitted
`GridSearchCV(pipeline, param_grid, scoring, cv, n_jobs)` after
`fit(X, y)`, and — modelled from the spec, since `CvClassifierDatasets`
lives elsewhere in the repository — the list of per-fold datasets produced
by `CvClassifierDatasets(cv_test_conf, families_supervision, sample_weight,
cv).generateDatasets(train_instances, None)`. -/
structure Ext (σ : Type) where
  psem : PipelineSem σ
  gridSearchBest : σ → List (String × List Rat) → String → SKFold → Nat →
      Feat → List Nat → List (String × Rat)
  genCvDatasets : Nat → Bool → Bool → SKFold → Instances → List Datasets

/-- The attribute state of a `Classifier` object. A field is `none` while
the corresponding Python attribute has not been assigned yet. The `alerts`
field distinguishes unset (`none`), set to `None` (`some none`) and set to
an `AlertsMonitoring` (`some (some _)`). -/
structure ClassifierState (σ : Type) where
  conf : Conf
  pipeline : σ
  cv : Option SKFold := none
  coefs : Option (List Rat) := none
  class_labels : Option (List Nat) := none
  training_predictions : Option Predictions := none
  training_monitoring : Option TrainingMonitoringRec := none
  cv_monitoring : Option CvMonitoringRec := none
  testing_predictions : Option Predictions := none
  testing_monitoring : Option TestingMonitoringRec := none
  validation_predictions : Option Predictions := none
  validation_monitoring : Option TestingMonitoringRec := none
  alerts : Option (Option AlertsMonitoringRec) := none
  deriving DecidableEq, Repr

/-- Embedding of `Classifier.getSupervision(instances, ground_truth, check)`:
fetch the annotations' supervision vector; with `check`, raise
`SupervisedLearningAtLeastTwoClasses` when it holds fewer than two distinct
classes. -/
def getSupervision (conf : Conf) (instances : Instances)
    (ground_truth : Bool) (check : Bool) : Except PyError (List Nat) :=
  let supervision := instances.supervision ground_truth conf.families_supervision
  if check then
    if supervision.dedup.length < 2 then
      .error .supervisedLearningAtLeastTwoClasses
    else
      .ok supervision
  else
    .ok supervision

/-- Embedding of `Classifier.applyPipeline(instances)`: empty instance sets short-circuit
to an empty `Predictions`; otherwise predict, predict probabilities, take
probability column 1 unless `families_supervision` (then a list of `None`),
and fall back to a list of zeros when `decision_function` raises. -/
def applyPipeline {σ : Type} (psem : PipelineSem σ) (conf : Conf) (s : σ)
    (instances : Instances) : Predictions × List Event :=
  let num_instances := instances.num_instances
  if num_instances = 0 then
    ({ predictions := [], all_predicted_proba := [], predicted_proba := [],
       predicted_scores := [], ids := instances.ids }, [])
  else
    let features := instances.features
    let predictions := psem.predict s features
    let all_predicted_proba := psem.predict_proba s features
    let predicted_proba : List (Option Rat) :=
      if conf.families_supervision then
        List.replicate num_instances none
      else
        all_predicted_proba.map (fun row => some (row.getD 1 0))
    let predicted_scores : List Rat :=
      match psem.decision_function s features with
      | some scores => scores
      | none => List.replicate num_instances 0
    ({ predictions := predictions, all_predicted_proba := all_predicted_proba,
       predicted_proba := predicted_proba, predicted_scores := predicted_scores,
       ids := instances.ids },
     [Event.predict features, Event.predictProba features,
      Event.decisionFunction features])

/-- Embedding of `Classifier.setBestParameters(datasets)`: build a
`StratifiedKFold(n_splits=conf.num_folds)`; with no parameter grid return it
at once; otherwise run the grid search with scoring `'accuracy'` under
families supervision and `'roc_auc'` otherwise, store the best values on the
configuration and set them on the pipeline.

The source has a missing comma in the sample-weight branch:
`grid_search.fit(X, self.getSupervision(datasets.train_instances)
** {'model__sample_weight': datasets.sample_weight})` applies the binary
`**` power operator to a list and a dict, which raises `TypeError` after
`getSupervision` evaluates; `grid_search.fit` is never called there. -/
def setBestParameters {σ : Type} (ext : Ext σ) (st : ClassifierState σ)
    (ds : Datasets) :
    Except PyError ((ClassifierState σ × SKFold) × List Event) :=
  let cv : SKFold := { n_splits := st.conf.num_folds }
  match st.conf.param_grid with
  | none => .ok ((st, cv), [Event.stratifiedKFold st.conf.num_folds])
  | some param_grid =>
    let scoring := if st.conf.families_supervision then "accuracy" else "roc_auc"
    if pyTruthyList ds.sample_weight then
      match getSupervision st.conf ds.train_instances false true with
      | .error e => .error e
      | .ok _ => .error .typeError
    else
      match getSupervision st.conf ds.train_instances false true with
      | .error e => .error e
      | .ok sup =>
        let X := ds.train_instances.features
        let best := ext.gridSearchBest st.pipeline param_grid scoring cv
                      st.conf.n_jobs X sup
        .ok (({ st with conf := { st.conf with best_values := best },
                        pipeline := ext.psem.set_params st.pipeline best }, cv),
             [Event.stratifiedKFold st.conf.num_folds,
              Event.gridSearchFit X sup none,
              Event.setParams best])

/-- The value `Classifier.setCoefficients(datasets)` stores in `self.coefs`:
`feature_importances_` under `'score'`, the first row of `coef_` under
`'weight'`, and otherwise a list of zeros, one per feature name. A missing
attribute raises `AttributeError`, an empty `coef_` raises `IndexError`
(neither branch is guarded in the source). -/
def computeCoefs {σ : Type} (ext : Ext σ) (st : ClassifierState σ)
    (ds : Datasets) : Except PyError (List Rat) :=
  if st.conf.featureImportance = some "score" then
    match ext.psem.feature_importances st.pipeline with
    | some fi => .ok fi
    | none => .error .attributeError
  else if st.conf.featureImportance = some "weight" then
    match ext.psem.coef st.pipeline with
    | some (r :: _) => .ok r
    | some [] => .error .indexError
    | none => .error .attributeError
  else
    .ok (List.replicate ds.features_names.length (0 : Rat))

/-- Embedding of `Classifier.setCoefficients(datasets)` as a state transformer:
assign `self.coefs` the value of `computeCoefs`. -/
def setCoefficients {σ : Type} (ext : Ext σ) (st : ClassifierState σ)
    (ds : Datasets) : Except PyError (ClassifierState σ) :=
  match computeCoefs ext st ds with
  | .ok c => .ok { st with coefs := some c }
  | .error e => .error e

/-- The optional `model__sample_weight` keyword argument a fit call
receives: the dataset weights when `datasets.sample_weight` is truthy,
nothing otherwise (the two Python call forms with and without `**kwargs`). -/
def fitWeights (ds : Datasets) : Option (List Rat) :=
  if pyTruthyList ds.sample_weight then ds.sample_weight else none

/-- Embedding of `Classifier.training(datasets)`: hyperparameter selection
(`setBestParameters`, whose `StratifiedKFold` is stored in `self.cv`), then
the pipeline fit (with the `model__sample_weight` keyword when
`datasets.sample_weight` is truthy), then training predictions with their
ground truth, coefficients, optional class labels, and the training
monitoring with a single fold `0`. Wall-clock bookkeeping
(`training_execution_time`) is not modelled. -/
def training {σ : Type} (ext : Ext σ) (st : ClassifierState σ)
    (ds : Datasets) : Except PyError (ClassifierState σ × List Event) :=
  match setBestParameters ext st ds with
  | .error e => .error e
  | .ok ((st1, cv), ev1) =>
    let st1 := { st1 with cv := some cv }
    let X := ds.train_instances.features
    match getSupervision st1.conf ds.train_instances false true with
    | .error e => .error e
    | .ok sup =>
      let sw := fitWeights ds
      let st2 := { st1 with pipeline := ext.psem.fit st1.pipeline X sup sw }
      let pr := applyPipeline ext.psem st2.conf st2.pipeline ds.train_instances
      match getSupervision st2.conf ds.train_instances false true with
      | .error e => .error e
      | .ok gt =>
        let preds := pr.1.setGroundTruth gt
        match computeCoefs ext st2 ds with
        | .error e => .error e
        | .ok coefs =>
          let st3 := { st2 with training_predictions := some preds,
                                coefs := some coefs }
          let st4 := if st3.conf.families_supervision then
                       { st3 with class_labels := some (ext.psem.classes st3.pipeline) }
                     else st3
          let tm : TrainingMonitoringRec :=
            { inited := true, folds := [(0, preds, coefs)] }
          .ok ({ st4 with training_monitoring := some tm },
               ev1 ++ [Event.pipelineFit X sup sw] ++ pr.2
                   ++ [Event.initTrainingMonitoring, Event.addTrainingFold 0])

/-- Embedding of `Classifier.testing(datasets)`: predictions on the test instances,
ground truth fetched with `ground_truth=True, check=False`, then the testing
monitoring. Wall-clock bookkeeping is not modelled. -/
def testing {σ : Type} (ext : Ext σ) (st : ClassifierState σ)
    (ds : Datasets) : Except PyError (ClassifierState σ × List Event) :=
  let pr := applyPipeline ext.psem st.conf st.pipeline ds.test_instances
  match getSupervision st.conf ds.test_instances true false with
  | .error e => .error e
  | .ok gt =>
    let preds := pr.1.setGroundTruth gt
    let tm : TestingMonitoringRec :=
      { monitoring_type := "testing", inited := true,
        predictions_monitoring := some preds }
    .ok ({ st with testing_predictions := some preds,
                   testing_monitoring := some tm },
         pr.2 ++ [Event.initTestingMonitoring "testing",
                  Event.addPredictions "testing"])

/-- Embedding of `Classifier.validation(datasets)`: same as testing but on the
validation instances, with `monitoring_type='validation'`. Calling it with
`datasets.validation_instances = None` would fault on attribute access. -/
def validation {σ : Type} (ext : Ext σ) (st : ClassifierState σ)
    (ds : Datasets) : Except PyError (ClassifierState σ × List Event) :=
  match ds.validation_instances with
  | none => .error .attributeError
  | some vi =>
    let pr := applyPipeline ext.psem st.conf st.pipeline vi
    match getSupervision st.conf vi true false with
    | .error e => .error e
    | .ok gt =>
      let preds := pr.1.setGroundTruth gt
      let vm : TestingMonitoringRec :=
        { monitoring_type := "validation", inited := true,
          predictions_monitoring := some preds }
      .ok ({ st with validation_predictions := some preds,
                     validation_monitoring := some vm },
           pr.2 ++ [Event.initTestingMonitoring "validation",
                    Event.addPredictions "validation"])

/-- Embedding of `Classifier.generateAlerts(datasets)`: set `self.alerts` to `None`;
return at once under families supervision or with no alerts configuration;
otherwise build an `AlertsMonitoring` from the predictions stored by the
testing monitoring and group the alerts. -/
def generateAlerts {σ : Type} (st : ClassifierState σ) (_ds : Datasets) :
    Except PyError (ClassifierState σ × List Event) :=
  let st1 := { st with alerts := some none }
  if st1.conf.families_supervision then
    .ok (st1, [])
  else
    match st1.conf.test_conf.alerts_conf with
    | none => .ok (st1, [])
    | some _ =>
      match st1.testing_monitoring with
      | none => .error .attributeError
      | some tm =>
        match tm.predictions_monitoring with
        | none => .error .attributeError
        | some preds =>
          let am : AlertsMonitoringRec := { predictions := preds, grouped := true }
          .ok ({ st1 with alerts := some (some am) },
               [Event.buildAlerts, Event.groupAlerts])

/-- Embedding of `Classifier.testValidation(datasets)`: testing, then alert generation,
then validation only when `datasets.validation_instances` is not `None`. -/
def testValidation {σ : Type} (ext : Ext σ) (st : ClassifierState σ)
    (ds : Datasets) : Except PyError (ClassifierState σ × List Event) :=
  match testing ext st ds with
  | .error e => .error e
  | .ok (st1, ev1) =>
    match generateAlerts st1 ds with
    | .error e => .error e
    | .ok (st2, ev2) =>
      match ds.validation_instances with
      | none => .ok (st2, ev1 ++ ev2)
      | some _ =>
        match validation ext st2 ds with
        | .error e => .error e
        | .ok (st3, ev3) => .ok (st3, ev1 ++ ev2 ++ ev3)

/-- Embedding of `Classifier.trainTestValidation(datasets)`: training, then
`testValidation`. -/
def trainTestValidation {σ : Type} (ext : Ext σ) (st : ClassifierState σ)
    (ds : Datasets) : Except PyError (ClassifierState σ × List Event) :=
  match training ext st ds with
  | .error e => .error e
  | .ok (st1, ev1) =>
    match testValidation ext st1 ds with
    | .error e => .error e
    | .ok (st2, ev2) => .ok (st2, ev1 ++ ev2)

/-- The body of the fold loop of `Classifier.crossValidationMonitoring`:
refit the pipeline on the fold's training instances (with the
`model__sample_weight` keyword when the fold's `sample_weight` is truthy),
predict on the fold's test instances, install the ground truth, and compute
the coefficients as the first row of `coef_`, falling back to zeros when
that access raises. Returns the new pipeline state, the `(predictions,
coefs)` pair handed to `addFold`, and the trace. -/
def cvFoldStep {σ : Type} (ext : Ext σ) (conf : Conf) (s : σ)
    (fold : Datasets) :
    Except PyError (σ × (Predictions × List Rat) × List Event) :=
  let X := fold.train_instances.features
  match getSupervision conf fold.train_instances false true with
  | .error e => .error e
  | .ok sup =>
    let sw := fitWeights fold
    let s2 := ext.psem.fit s X sup sw
    let pr := applyPipeline ext.psem conf s2 fold.test_instances
    match getSupervision conf fold.test_instances false true with
    | .error e => .error e
    | .ok gt =>
      let preds := pr.1.setGroundTruth gt
      let coefs : List Rat :=
        match ext.psem.coef s2 with
        | some (r :: _) => r
        | _ => List.replicate fold.features_names.length (0 : Rat)
      .ok (s2, (preds, coefs), [Event.pipelineFit X sup sw] ++ pr.2)

/-- The fold loop of `Classifier.crossValidationMonitoring`
(`for fold_id, datasets in enumerate(cv_datasets.datasets)`), threading the
pipeline state and collecting the `addFold(fold_id, ...)` entries in
order. -/
def cvLoop {σ : Type} (ext : Ext σ) (conf : Conf) (s : σ) (fold_id : Nat) :
    List Datasets →
    Except PyError (σ × List (Nat × Predictions × List Rat) × List Event)
  | [] => .ok (s, [], [])
  | fold :: rest =>
    match cvFoldStep ext conf s fold with
    | .error e => .error e
    | .ok (s2, entry, ev1) =>
      match cvLoop ext conf s2 (fold_id + 1) rest with
      | .error e => .error e
      | .ok (s3, entries, ev2) =>
        .ok (s3, (fold_id, entry.1, entry.2) :: entries,
             ev1 ++ [Event.addCvFold fold_id] ++ ev2)

/-- Embedding of `Classifier.crossValidationMonitoring(datasets)`: generate the
cross-validation datasets from the training instances (through the
`CvClassifierDatasets` helper, given a `CvConf` with `conf.num_folds` folds
and no alerts configuration, and `cv=self.cv`), build a
`CvMonitoring(conf, conf.num_folds)`, and run the fold loop. -/
def crossValidationMonitoring {σ : Type} (ext : Ext σ)
    (st : ClassifierState σ) (ds : Datasets) :
    Except PyError (ClassifierState σ × List Event) :=
  match st.cv with
  | none => .error .attributeError
  | some cvv =>
    match cvLoop ext st.conf st.pipeline 0
        (ext.genCvDatasets st.conf.num_folds st.conf.families_supervision
          st.conf.sample_weight cvv ds.train_instances) with
    | .error e => .error e
    | .ok (s3, entries, ev) =>
      let m : CvMonitoringRec :=
        { num_folds := st.conf.num_folds, inited := true, folds := entries }
      .ok ({ st with pipeline := s3, cv_monitoring := some m },
           [Event.initCvMonitoring] ++ ev)

/-! ## Concrete test data for witnesses and counterexamples -/

/-- A trivial pipeline semantics over the one-point state: every query
returns the empty answer and `decision_function`, `feature_importances_`
and `coef_` are absent. -/
def unitSem : PipelineSem Unit :=
  { predict := fun _ _ => [], predict_proba := fun _ _ => [],
    decision_function := fun _ _ => none,
    feature_importances := fun _ => none, coef := fun _ => none,
    classes := fun _ => [], fit := fun _ _ _ _ => (),
    set_params := fun _ _ => () }

/-- Trivial external world over the one-point pipeline state. -/
def extU : Ext Unit :=
  { psem := unitSem, gridSearchBest := fun _ _ _ _ _ _ _ => [],
    genCvDatasets := fun _ _ _ _ _ => [] }

/-- An empty instance set whose annotations expose two classes. -/
def emptyInst : Instances :=
  { ids := [], num_instances := 0, features := [],
    supervision := fun _ _ => [0, 1] }

/-- An instance set with a single instance and two annotation classes. -/
def oneInst : Instances :=
  { ids := [7], num_instances := 1, features := [[0]],
    supervision := fun _ _ => [0, 1] }

/-- An instance set whose annotations expose a single class. -/
def oneClassInst : Instances :=
  { ids := [3], num_instances := 1, features := [[1]],
    supervision := fun _ _ => [5, 5] }

/-- A minimal configuration: two folds, no families supervision, no
parameter grid, no feature importance, no alerts configuration. -/
def confU : Conf :=
  { num_folds := 2, families_supervision := false, sample_weight := false,
    n_jobs := 1, param_grid := none, featureImportance := none,
    test_conf := { alerts_conf := none } }

/-- Datasets with no validation instances and no sample weights. -/
def dsU : Datasets :=
  { train_instances := emptyInst, test_instances := emptyInst,
    validation_instances := none, sample_weight := none,
    features_names := [] }

/-- Datasets with validation instances present. -/
def dsV : Datasets :=
  { train_instances := emptyInst, test_instances := emptyInst,
    validation_instances := some emptyInst, sample_weight := none,
    features_names := [] }

/-- The initial classifier attribute state over `confU`. -/
def stU : ClassifierState Unit := { conf := confU, pipeline := () }

/-! ## C2 — the at-least-two-classes guard of `getSupervision` -/

/-- C2: `getSupervision` with `check=True` raises
`SupervisedLearningAtLeastTwoClasses` exactly when the supervision vector
holds fewer than two distinct classes, and otherwise returns it unchanged;
with `check=False` it always returns the supervision unchanged. -/
theorem getSupervision_check_spec (conf : Conf) (i : Instances) (gt : Bool) :
    (getSupervision conf i gt true =
       if (i.supervision gt conf.families_supervision).dedup.length < 2 then
         .error .supervisedLearningAtLeastTwoClasses
       else
         .ok (i.supervision gt conf.families_supervision)) ∧
    (getSupervision conf i gt true =
         .error .supervisedLearningAtLeastTwoClasses ↔
       (i.supervision gt conf.families_supervision).dedup.length < 2) ∧
    getSupervision conf i gt false =
      .ok (i.supervision gt conf.families_supervision) := by
  unfold getSupervision
  by_cases h : (i.supervision gt conf.families_supervision).dedup.length < 2 <;>
    simp [h]

/-! ## C9 — `applyPipeline` on an empty instance set -/

/-- C9: on an instance set with zero instances, `applyPipeline` returns a
`Predictions` built from four empty lists and the instance ids, and its
trace is empty: no `predict`, `predict_proba` or `decision_function` call is
made. -/
theorem applyPipeline_empty_instances {σ : Type} (psem : PipelineSem σ)
    (conf : Conf) (s : σ) (inst : Instances)
    (h : inst.num_instances = 0) :
    applyPipeline psem conf s inst =
      ({ predictions := [], all_predicted_proba := [], predicted_proba := [],
         predicted_scores := [], ids := inst.ids }, []) := by
  unfold applyPipeline
  simp [h]

/-- Witness for C9 on a concrete empty instance set. -/
theorem applyPipeline_empty_instances_witness :
    emptyInst.num_instances = 0 ∧
    applyPipeline unitSem confU () emptyInst =
      ({ predictions := [], all_predicted_proba := [], predicted_proba := [],
         predicted_scores := [], ids := [] }, []) :=
  ⟨rfl, applyPipeline_empty_instances unitSem confU () emptyInst rfl⟩

/-! ## C7 — the `decision_function` fallback of `applyPipeline` -/

/-- C7: when the pipeline's `decision_function` raises, `applyPipeline` does
not fail: the predicted scores fall back to a list of zeros of length
`num_instances`, and the returned `Predictions` is still fully populated
from `predict` and `predict_proba`. -/
theorem applyPipeline_decision_function_fallback {σ : Type}
    (psem : PipelineSem σ) (conf : Conf) (s : σ) (inst : Instances)
    (hn : inst.num_instances ≠ 0)
    (hdf : psem.decision_function s inst.features = none) :
    applyPipeline psem conf s inst =
      ({ predictions := psem.predict s inst.features,
         all_predicted_proba := psem.predict_proba s inst.features,
         predicted_proba :=
           if conf.families_supervision then
             List.replicate inst.num_instances none
           else
             (psem.predict_proba s inst.features).map
               (fun row => some (row.getD 1 0)),
         predicted_scores := List.replicate inst.num_instances 0,
         ids := inst.ids },
       [Event.predict inst.features, Event.predictProba inst.features,
        Event.decisionFunction inst.features]) := by
  unfold applyPipeline
  simp [hn, hdf]

/-- Witness for C7 on a concrete one-instance set whose pipeline lacks a
`decision_function`. -/
theorem applyPipeline_decision_function_fallback_witness :
    oneInst.num_instances ≠ 0 ∧
    unitSem.decision_function () oneInst.features = none ∧
    applyPipeline unitSem confU () oneInst =
      ({ predictions := [], all_predicted_proba := [], predicted_proba := [],
         predicted_scores := [0], ids := [7] },
       [Event.predict [[0]], Event.predictProba [[0]],
        Event.decisionFunction [[0]]]) := by
  refine ⟨by decide, rfl, ?_⟩
  rw [applyPipeline_decision_function_fallback unitSem confU () oneInst
        (by decide) rfl]
  rfl

/-! ## C8 — testing and validation disable the two-classes check -/

/-- C8: `testing` and `validation` fetch their ground truth with
`check=False`, so neither can raise `SupervisedLearningAtLeastTwoClasses`,
whatever the instance sets contain; `testing` always succeeds, and
`validation` succeeds whenever validation instances are present. -/
theorem testing_validation_never_two_classes {σ : Type} (ext : Ext σ)
    (st : ClassifierState σ) (ds : Datasets) :
    (∃ r, testing ext st ds = .ok r) ∧
    testing ext st ds ≠ .error .supervisedLearningAtLeastTwoClasses ∧
    validation ext st ds ≠ .error .supervisedLearningAtLeastTwoClasses ∧
    (ds.validation_instances.isSome → ∃ r, validation ext st ds = .ok r) := by
  obtain ⟨r, hr⟩ : ∃ r, testing ext st ds = .ok r := ⟨_, rfl⟩
  refine ⟨⟨r, hr⟩, by rw [hr]; simp, ?_, ?_⟩
  · cases hv : ds.validation_instances with
    | none =>
      unfold validation
      rw [hv]
      simp
    | some vi =>
      obtain ⟨r2, hr2⟩ : ∃ r2, validation ext st ds = .ok r2 := by
        unfold validation
        rw [hv]
        exact ⟨_, rfl⟩
      rw [hr2]
      simp
  · intro hs
    cases hv : ds.validation_instances with
    | none =>
      rw [hv] at hs
      simp at hs
    | some vi =>
      unfold validation
      rw [hv]
      exact ⟨_, rfl⟩

/-- Witness for C8: on a concrete dataset whose test and validation
instance sets carry a single class, both phases still succeed. -/
theorem testing_validation_never_two_classes_witness :
    (∃ r, testing extU { conf := confU, pipeline := () }
        { train_instances := emptyInst, test_instances := oneClassInst,
          validation_instances := some oneClassInst, sample_weight := none,
          features_names := [] } = .ok r) ∧
    testing extU { conf := confU, pipeline := () }
        { train_instances := emptyInst, test_instances := oneClassInst,
          validation_instances := some oneClassInst, sample_weight := none,
          features_names := [] } ≠
      .error .supervisedLearningAtLeastTwoClasses ∧
    validation extU { conf := confU, pipeline := () }
        { train_instances := emptyInst, test_instances := oneClassInst,
          validation_instances := some oneClassInst, sample_weight := none,
          features_names := [] } ≠
      .error .supervisedLearningAtLeastTwoClasses ∧
    ((some oneClassInst : Option Instances).isSome →
      ∃ r, validation extU { conf := confU, pipeline := () }
        { train_instances := emptyInst, test_instances := oneClassInst,
          validation_instances := some oneClassInst, sample_weight := none,
          features_names := [] } = .ok r) :=
  testing_validation_never_two_classes extU
    { conf := confU, pipeline := () }
    { train_instances := emptyInst, test_instances := oneClassInst,
      validation_instances := some oneClassInst, sample_weight := none,
      features_names := [] }

/-! ## C10 — `setCoefficients` always defines `self.coefs` -/

/-- C10: `setCoefficients` leaves `self.coefs` equal to the model's
`feature_importances_` when the configured feature importance is `'score'`,
to the first row of the model's `coef_` when it is `'weight'`, and otherwise
to a list of zeros, one per feature name of the datasets (provided the
external attribute read in the selected branch exists). -/
theorem setCoefficients_defined {σ : Type} (ext : Ext σ)
    (st : ClassifierState σ) (ds : Datasets) :
    (∀ fi, st.conf.featureImportance = some "score" →
       ext.psem.feature_importances st.pipeline = some fi →
       setCoefficients ext st ds = .ok { st with coefs := some fi }) ∧
    (∀ r rs, st.conf.featureImportance = some "weight" →
       ext.psem.coef st.pipeline = some (r :: rs) →
       setCoefficients ext st ds = .ok { st with coefs := some r }) ∧
    (st.conf.featureImportance ≠ some "score" →
     st.conf.featureImportance ≠ some "weight" →
     setCoefficients ext st ds =
       .ok { st with coefs := some (List.replicate ds.features_names.length (0 : Rat)) }) := by
  refine ⟨?_, ?_, ?_⟩
  · intro fi hs hfi
    unfold setCoefficients computeCoefs
    simp [hs, hfi]
  · intro r rs hw hc
    unfold setCoefficients computeCoefs
    simp [hw, hc]
  · intro hs hw
    unfold setCoefficients computeCoefs
    simp [hs, hw]

/-- A pipeline semantics whose model exposes `feature_importances_`,
`coef_` and a `decision_function`. -/
def richSem : PipelineSem Unit :=
  { predict := fun _ _ => [1], predict_proba := fun _ _ => [[0, 1]],
    decision_function := fun _ _ => some [2],
    feature_importances := fun _ => some [3, 4],
    coef := fun _ => some [[5, 6], [7]],
    classes := fun _ => [0, 1], fit := fun _ _ _ _ => (),
    set_params := fun _ _ => () }

/-- External world over `richSem`, with a constant grid-search answer and a
two-fold cross-validation dataset generator. -/
def extR : Ext Unit :=
  { psem := richSem,
    gridSearchBest := fun _ _ _ _ _ _ _ => [("model__alpha", 1)],
    genCvDatasets := fun _ _ _ _ _ => [dsU, dsU] }

/-- Configuration selecting the `'score'` feature importance. -/
def confScore : Conf := { confU with featureImportance := some "score" }

/-- Configuration selecting the `'weight'` feature importance. -/
def confWeight : Conf := { confU with featureImportance := some "weight" }

/-- Witness for C10 on concrete configurations exercising all three
branches. -/
theorem setCoefficients_defined_witness :
    setCoefficients extR { conf := confScore, pipeline := () } dsU =
      .ok { conf := confScore, pipeline := (), coefs := some [3, 4] } ∧
    setCoefficients extR { conf := confWeight, pipeline := () } dsU =
      .ok { conf := confWeight, pipeline := (), coefs := some [5, 6] } ∧
    setCoefficients extR { conf := confU, pipeline := () } dsU =
      .ok { conf := confU, pipeline := (), coefs := some [] } :=
  ⟨(setCoefficients_defined extR { conf := confScore, pipeline := () } dsU).1
      [3, 4] rfl rfl,
   (setCoefficients_defined extR { conf := confWeight, pipeline := () } dsU).2.1
      [5, 6] [[7]] rfl rfl,
   (setCoefficients_defined extR { conf := confU, pipeline := () } dsU).2.2
      (by decide) (by decide)⟩

/-! ## C5 — alert generation is optional -/

/-- C5: `generateAlerts` sets `self.alerts` to `None` and makes no alert
calls whenever `families_supervision` holds or the test configuration has no
alerts configuration; only when neither holds does it build an
`AlertsMonitoring` from the predictions recorded by the testing monitoring
and group the alerts. -/
theorem generateAlerts_optional {σ : Type} (st : ClassifierState σ)
    (ds : Datasets) :
    (st.conf.families_supervision = true →
       generateAlerts st ds = .ok ({ st with alerts := some none }, [])) ∧
    (st.conf.test_conf.alerts_conf = none →
       generateAlerts st ds = .ok ({ st with alerts := some none }, [])) ∧
    (∀ ac tm preds, st.conf.families_supervision = false →
       st.conf.test_conf.alerts_conf = some ac →
       st.testing_monitoring = some tm →
       tm.predictions_monitoring = some preds →
       generateAlerts st ds =
         .ok ({ st with alerts := some (some (AlertsMonitoringRec.mk preds true)) },
              [Event.buildAlerts, Event.groupAlerts])) := by
  refine ⟨?_, ?_, ?_⟩
  · intro hf
    unfold generateAlerts
    simp [hf]
  · intro ha
    unfold generateAlerts
    by_cases hf : st.conf.families_supervision <;> simp [hf, ha]
  · intro ac tm preds hf ha htm hp
    unfold generateAlerts
    simp [hf, ha, htm, hp]

/-- Configuration with families supervision enabled. -/
def confFam : Conf := { confU with families_supervision := true }

/-- Configuration with an alerts configuration present. -/
def confAlerts : Conf := { confU with test_conf := { alerts_conf := some () } }

/-- An empty predictions record. -/
def predsEmpty : Predictions :=
  { predictions := [], all_predicted_proba := [], predicted_proba := [],
    predicted_scores := [], ids := [] }

/-- A testing monitoring record holding `predsEmpty`. -/
def tmW : TestingMonitoringRec :=
  { monitoring_type := "testing", inited := true,
    predictions_monitoring := some predsEmpty }

/-- Witness for C5 on concrete states exercising all three branches. -/
theorem generateAlerts_optional_witness :
    generateAlerts { conf := confFam, pipeline := () } dsU =
      .ok ({ conf := confFam, pipeline := (), alerts := some none }, []) ∧
    generateAlerts { conf := confU, pipeline := () } dsU =
      .ok ({ conf := confU, pipeline := (), alerts := some none }, []) ∧
    generateAlerts
        { conf := confAlerts, pipeline := (),
          testing_monitoring := some tmW } dsU =
      .ok ({ conf := confAlerts, pipeline := (),
             testing_monitoring := some tmW,
             alerts := some (some (AlertsMonitoringRec.mk predsEmpty true)) },
           [Event.buildAlerts, Event.groupAlerts]) :=
  ⟨(generateAlerts_optional
      ({ conf := confFam, pipeline := () } : ClassifierState Unit) dsU).1 rfl,
   (generateAlerts_optional
      ({ conf := confU, pipeline := () } : ClassifierState Unit) dsU).2.1 rfl,
   (generateAlerts_optional
      ({ conf := confAlerts, pipeline := (),
         testing_monitoring := some tmW } : ClassifierState Unit) dsU).2.2
      () tmW predsEmpty rfl rfl rfl rfl⟩

/-! ## C3 / C4 — the missing comma in `setBestParameters` -/

/-- Configuration with a non-`None` parameter grid. -/
def confGrid : Conf := { confU with param_grid := some [("model__alpha", [1])] }

/-- Datasets with a truthy `sample_weight` and no validation instances. -/
def dsSW : Datasets := { dsU with sample_weight := some [1] }

/-- C3: with `sample_weight` set and a non-`None` parameter grid, training
never reaches the grid-search fit with a `model__sample_weight` keyword:
the missing comma in `setBestParameters` turns the intended keyword
argument into the power expression
`getSupervision(...) ** {'model__sample_weight': ...}`, so `training`
raises `TypeError` instead. -/
theorem training_sample_weight_grid_bug :
    training extU { conf := confGrid, pipeline := () } dsSW =
      .error PyError.typeError := rfl

/-- Counterexample to C4 as stated: `setBestParameters` does not always
return a `StratifiedKFold`; on a truthy `sample_weight` with a non-`None`
grid it raises `TypeError` through the missing-comma power expression. -/
theorem setBestParameters_not_total :
    setBestParameters extU { conf := confGrid, pipeline := () } dsSW =
      .error PyError.typeError := rfl

/-- C4 (amended): whenever `setBestParameters` returns, it returns a
`StratifiedKFold` with `conf.num_folds` splits; when the parameter grid is
`None` it performs no grid search and leaves the state (in particular the
pipeline) unchanged; when the grid is non-`None` and the call completes, it
runs the grid search with scoring `'accuracy'` under families supervision
and `'roc_auc'` otherwise, and sets the best values found on the
pipeline. -/
theorem setBestParameters_spec {σ : Type} (ext : Ext σ)
    (st : ClassifierState σ) (ds : Datasets) :
    (∀ st2 cv tr, setBestParameters ext st ds = .ok ((st2, cv), tr) →
       cv = { n_splits := st.conf.num_folds }) ∧
    (st.conf.param_grid = none →
       setBestParameters ext st ds =
         .ok ((st, { n_splits := st.conf.num_folds }),
              [Event.stratifiedKFold st.conf.num_folds])) ∧
    (∀ g sup best, st.conf.param_grid = some g →
       pyTruthyList ds.sample_weight = false →
       getSupervision st.conf ds.train_instances false true = .ok sup →
       best = ext.gridSearchBest st.pipeline g
           (if st.conf.families_supervision then "accuracy" else "roc_auc")
           { n_splits := st.conf.num_folds } st.conf.n_jobs
           ds.train_instances.features sup →
       setBestParameters ext st ds =
         .ok (({ st with conf := { st.conf with best_values := best },
                         pipeline := ext.psem.set_params st.pipeline best },
               { n_splits := st.conf.num_folds }),
              [Event.stratifiedKFold st.conf.num_folds,
               Event.gridSearchFit ds.train_instances.features sup none,
               Event.setParams best])) := by
  refine ⟨?_, ?_, ?_⟩
  · intro st2 cv tr h
    unfold setBestParameters at h
    cases hg : st.conf.param_grid with
    | none =>
      rw [hg] at h
      injection h with h1
      injection h1 with h2 h3
      injection h2 with h4 h5
      exact h5.symm
    | some g =>
      rw [hg] at h
      cases hw : pyTruthyList ds.sample_weight with
      | true =>
        rw [hw] at h
        cases hs : getSupervision st.conf ds.train_instances false true with
        | error e =>
          rw [hs] at h
          simp at h
        | ok sup =>
          rw [hs] at h
          simp at h
      | false =>
        rw [hw] at h
        cases hs : getSupervision st.conf ds.train_instances false true with
        | error e =>
          rw [hs] at h
          simp at h
        | ok sup =>
          rw [hs] at h
          injection h with h1
          injection h1 with h2 h3
          injection h2 with h4 h5
          exact h5.symm
  · intro hg
    unfold setBestParameters
    rw [hg]
  · intro g sup best hg hw hs hb
    unfold setBestParameters
    rw [hg]
    simp only [hw, Bool.false_eq_true, if_false]
    rw [hs, hb]

/-- Witness for C4 (amended) on concrete inputs: a grid-less run, and a
successful grid-search run with scoring `'roc_auc'`. -/
theorem setBestParameters_spec_witness :
    SKFold.mk 2 = SKFold.mk confU.num_folds ∧
    setBestParameters extU stU dsU =
      .ok ((stU, SKFold.mk confU.num_folds),
           [Event.stratifiedKFold confU.num_folds]) ∧
    setBestParameters extR { conf := confGrid, pipeline := () } dsU =
      .ok ((({ conf := { confGrid with best_values := [("model__alpha", 1)] },
               pipeline := () } : ClassifierState Unit),
            SKFold.mk confGrid.num_folds),
           [Event.stratifiedKFold confGrid.num_folds,
            Event.gridSearchFit [] [0, 1] none,
            Event.setParams [("model__alpha", 1)]]) :=
  ⟨(setBestParameters_spec extU stU dsU).1 stU (SKFold.mk 2)
      [Event.stratifiedKFold confU.num_folds] rfl,
   (setBestParameters_spec extU stU dsU).2.1 rfl,
   (setBestParameters_spec extR { conf := confGrid, pipeline := () } dsU).2.2
      [("model__alpha", [1])] [0, 1] [("model__alpha", 1)] rfl rfl rfl rfl⟩

/-! ## C6 — per-fold cross-validation monitoring -/

/-- Helper for C6: a successful fold loop produces exactly one entry per
cross-validation dataset, with consecutive fold ids starting at `i`, and
each entry carries the `(predictions, coefs)` pair of a `cvFoldStep` run on
the corresponding fold dataset. -/
theorem cvLoop_entries {σ : Type} (ext : Ext σ) (conf : Conf)
    (folds : List Datasets) :
    ∀ (s : σ) (i : Nat) (s3 : σ)
      (entries : List (Nat × Predictions × List Rat)) (ev : List Event),
      cvLoop ext conf s i folds = .ok (s3, entries, ev) →
      entries.length = folds.length ∧
      ∀ k e fd, entries[k]? = some e → folds[k]? = some fd →
        e.1 = i + k ∧
        ∃ s0 s2 ev2, cvFoldStep ext conf s0 fd = .ok (s2, (e.2.1, e.2.2), ev2) := by
  induction folds with
  | nil =>
    intro s i s3 entries ev h
    unfold cvLoop at h
    injection h with h1
    injection h1 with h2 h3
    injection h3 with h4 h5
    subst h4
    refine ⟨rfl, ?_⟩
    intro k e fd he hf
    simp at he
  | cons fold rest ih =>
    intro s i s3 entries ev h
    unfold cvLoop at h
    cases hstep : cvFoldStep ext conf s fold with
    | error e =>
      rw [hstep] at h
      simp at h
    | ok tripl =>
      obtain ⟨s2, entry, ev1⟩ := tripl
      rw [hstep] at h
      dsimp only at h
      cases hrec : cvLoop ext conf s2 (i + 1) rest with
      | error e =>
        rw [hrec] at h
        simp at h
      | ok tripl2 =>
        obtain ⟨s3x, entries2, ev2⟩ := tripl2
        rw [hrec] at h
        injection h with h1
        injection h1 with h2 h3
        injection h3 with h4 h5
        subst h4
        obtain ⟨hlen, hspec⟩ := ih s2 (i + 1) s3x entries2 ev2 hrec
        refine ⟨by simpa using hlen, ?_⟩
        intro k e fd he hf
        cases k with
        | zero =>
          rw [List.getElem?_cons_zero] at he hf
          injection he with he1
          injection hf with hf1
          subst he1
          subst hf1
          exact ⟨rfl, s, s2, ev1, hstep⟩
        | succ k =>
          rw [List.getElem?_cons_succ] at he hf
          obtain ⟨hk, hrest⟩ := hspec k e fd he hf
          refine ⟨by omega, hrest⟩

/-- C6: on success, `crossValidationMonitoring` installs a `CvMonitoring`
built over `conf.num_folds` folds, initialised, holding exactly one fold
entry per cross-validation dataset, with fold ids `0, 1, ...` in sequence,
each entry being the `(predictions, coefs)` pair produced by the fold body
(refit on the fold's training instances, predictions on its test instances,
coefficients from `coef_` with the zero fallback). -/
theorem crossValidationMonitoring_per_fold {σ : Type} (ext : Ext σ)
    (st : ClassifierState σ) (ds : Datasets) (st2 : ClassifierState σ)
    (tr : List Event)
    (h : crossValidationMonitoring ext st ds = .ok (st2, tr)) :
    ∃ cvv m, st.cv = some cvv ∧ st2.cv_monitoring = some m ∧
      m.num_folds = st.conf.num_folds ∧ m.inited = true ∧
      m.folds.length = (ext.genCvDatasets st.conf.num_folds
        st.conf.families_supervision st.conf.sample_weight cvv
        ds.train_instances).length ∧
      ∀ (k : Nat) (e : Nat × Predictions × List Rat) (fd : Datasets),
        m.folds[k]? = some e →
        (ext.genCvDatasets st.conf.num_folds st.conf.families_supervision
          st.conf.sample_weight cvv ds.train_instances)[k]? = some fd →
        e.1 = k ∧
        ∃ s0 s2 ev2,
          cvFoldStep ext st.conf s0 fd = .ok (s2, (e.2.1, e.2.2), ev2) := by
  unfold crossValidationMonitoring at h
  cases hcv : st.cv with
  | none =>
    rw [hcv] at h
    simp at h
  | some cvv =>
    rw [hcv] at h
    dsimp only at h
    cases hloop : cvLoop ext st.conf st.pipeline 0
        (ext.genCvDatasets st.conf.num_folds st.conf.families_supervision
          st.conf.sample_weight cvv ds.train_instances) with
    | error e =>
      rw [hloop] at h
      simp at h
    | ok tripl =>
      obtain ⟨s3, entries, ev⟩ := tripl
      rw [hloop] at h
      injection h with h1
      injection h1 with h2 h3
      obtain ⟨hlen, hspec⟩ :=
        cvLoop_entries ext st.conf
          (ext.genCvDatasets st.conf.num_folds st.conf.families_supervision
            st.conf.sample_weight cvv ds.train_instances)
          st.pipeline 0 s3 entries ev hloop
      refine ⟨cvv, CvMonitoringRec.mk st.conf.num_folds true entries, rfl,
              ?_, rfl, rfl, hlen, ?_⟩
      · rw [← h2]
      · intro k e fd he hf
        obtain ⟨hk, hrest⟩ := hspec k e fd he hf
        exact ⟨by omega, hrest⟩

/-- A classifier state whose `self.cv` attribute has been set. -/
def stCV : ClassifierState Unit :=
  { conf := confU, pipeline := (), cv := some (SKFold.mk 2) }

/-- The result of a concrete two-fold `crossValidationMonitoring` run. -/
def c6run : Except PyError (ClassifierState Unit × List Event) :=
  crossValidationMonitoring extR stCV dsU

/-- The final state of the concrete `crossValidationMonitoring` run. -/
def c6st : ClassifierState Unit :=
  match c6run with
  | .ok (s, _) => s
  | .error _ => stCV

/-- The trace of the concrete `crossValidationMonitoring` run. -/
def c6tr : List Event :=
  match c6run with
  | .ok (_, t) => t
  | .error _ => []

/-- Witness for C6: the concrete two-fold run succeeds and satisfies the
per-fold specification. -/
theorem crossValidationMonitoring_per_fold_witness :
    ∃ cvv m, stCV.cv = some cvv ∧ c6st.cv_monitoring = some m ∧
      m.num_folds = stCV.conf.num_folds ∧ m.inited = true ∧
      m.folds.length = (extR.genCvDatasets stCV.conf.num_folds
        stCV.conf.families_supervision stCV.conf.sample_weight cvv
        dsU.train_instances).length ∧
      ∀ (k : Nat) (e : Nat × Predictions × List Rat) (fd : Datasets),
        m.folds[k]? = some e →
        (extR.genCvDatasets stCV.conf.num_folds
          stCV.conf.families_supervision stCV.conf.sample_weight cvv
          dsU.train_instances)[k]? = some fd →
        e.1 = k ∧
        ∃ s0 s2 ev2,
          cvFoldStep extR stCV.conf s0 fd = .ok (s2, (e.2.1, e.2.2), ev2) :=
  crossValidationMonitoring_per_fold extR stCV dsU c6st c6tr rfl

/-! ## C1 — the fixed training / testing / alerts / validation sequence -/

/-- Success flag of a concrete `trainTestValidation` run on a dataset
without validation instances. -/
def c1ok : Bool :=
  match trainTestValidation extU stU dsU with
  | .ok _ => true
  | .error _ => false

/-- Trace of the concrete `trainTestValidation` run on `dsU` (with a
sentinel validation event in the unreachable error case, so that the
absence of validation events is meaningful on its own). -/
def c1tr : List Event :=
  match trainTestValidation extU stU dsU with
  | .ok (_, t) => t
  | .error _ => [Event.initTestingMonitoring "validation"]

/-- Counterexample to C1 as stated: on a dataset whose
`validation_instances` is `None`, `trainTestValidation` completes without
ever invoking the validation step — no validation monitoring call appears
in its trace, so the validation step is skipped. -/
theorem trainTestValidation_validation_skipped :
    c1ok = true ∧
    Event.initTestingMonitoring "validation" ∉ c1tr ∧
    Event.addPredictions "validation" ∉ c1tr := by
  decide

/-- C1 (amended): `trainTestValidation` executes training — hyperparameter
selection, then the pipeline fit, then predictions and monitoring on the
training instances — then testing, then alert generation, and finally
validation, except that the validation step is skipped when
`datasets.validation_instances` is `None`; nothing is reordered. -/
theorem trainTestValidation_sequence {σ : Type} (ext : Ext σ)
    (st stA st1 st2 st3 : ClassifierState σ) (ds : Datasets) (cv : SKFold)
    (ta t1 t2 t3 : List Event) (sup : List Nat) (cf : List Rat)
    (hbp : setBestParameters ext st ds = .ok ((stA, cv), ta))
    (hsup : getSupervision stA.conf ds.train_instances false true = .ok sup)
    (hcf : computeCoefs ext
        { stA with cv := some cv,
                   pipeline := ext.psem.fit stA.pipeline ds.train_instances.features sup (fitWeights ds) }
        ds = .ok cf)
    (h1 : training ext st ds = .ok (st1, t1))
    (h2 : testing ext st1 ds = .ok (st2, t2))
    (h3 : generateAlerts st2 ds = .ok (st3, t3)) :
    t1 = ta
        ++ [Event.pipelineFit ds.train_instances.features sup (fitWeights ds)]
        ++ (applyPipeline ext.psem stA.conf
              (ext.psem.fit stA.pipeline ds.train_instances.features sup (fitWeights ds))
              ds.train_instances).2
        ++ [Event.initTrainingMonitoring, Event.addTrainingFold 0] ∧
    (ds.validation_instances = none →
       trainTestValidation ext st ds = .ok (st3, t1 ++ (t2 ++ t3))) ∧
    (∀ (vi : Instances) (st4 : ClassifierState σ) (t4 : List Event),
       ds.validation_instances = some vi →
       validation ext st3 ds = .ok (st4, t4) →
       trainTestValidation ext st ds = .ok (st4, t1 ++ (t2 ++ t3 ++ t4))) := by
  have h1o := h1
  unfold training at h1
  rw [hbp] at h1
  dsimp only at h1
  rw [hsup] at h1
  dsimp only at h1
  rw [hcf] at h1
  dsimp only at h1
  refine ⟨?_, ?_, ?_⟩
  · injection h1 with h1a
    injection h1a with h1b h1c
    exact h1c.symm
  · intro hv
    unfold trainTestValidation testValidation
    rw [h1o]
    dsimp only
    rw [h2]
    dsimp only
    rw [h3]
    dsimp only
    rw [hv]
  · intro vi st4 t4 hv h4
    unfold trainTestValidation testValidation
    rw [h1o]
    dsimp only
    rw [h2]
    dsimp only
    rw [h3]
    dsimp only
    rw [hv]
    dsimp only
    rw [h4]

/-- Result of the concrete training phase on `dsV`. -/
def c1w1 : ClassifierState Unit × List Event :=
  match training extU stU dsV with
  | .ok r => r
  | .error _ => (stU, [])

/-- Result of the concrete testing phase on `dsV`. -/
def c1w2 : ClassifierState Unit × List Event :=
  match testing extU c1w1.1 dsV with
  | .ok r => r
  | .error _ => (stU, [])

/-- Result of the concrete alert-generation phase on `dsV`. -/
def c1w3 : ClassifierState Unit × List Event :=
  match generateAlerts c1w2.1 dsV with
  | .ok r => r
  | .error _ => (stU, [])

/-- Witness for C1 (amended) on a concrete run with validation instances
present. -/
theorem trainTestValidation_sequence_witness :
    c1w1.2 = [Event.stratifiedKFold 2]
        ++ [Event.pipelineFit dsV.train_instances.features [0, 1] (fitWeights dsV)]
        ++ (applyPipeline extU.psem stU.conf
              (extU.psem.fit stU.pipeline dsV.train_instances.features [0, 1] (fitWeights dsV))
              dsV.train_instances).2
        ++ [Event.initTrainingMonitoring, Event.addTrainingFold 0] ∧
    (dsV.validation_instances = none →
       trainTestValidation extU stU dsV = .ok (c1w3.1, c1w1.2 ++ (c1w2.2 ++ c1w3.2))) ∧
    (∀ (vi : Instances) (st4 : ClassifierState Unit) (t4 : List Event),
       dsV.validation_instances = some vi →
       validation extU c1w3.1 dsV = .ok (st4, t4) →
       trainTestValidation extU stU dsV = .ok (st4, c1w1.2 ++ (c1w2.2 ++ c1w3.2 ++ t4))) :=
  trainTestValidation_sequence extU stU stU c1w1.1 c1w2.1 c1w3.1 dsV
    (SKFold.mk 2) [Event.stratifiedKFold 2] c1w1.2 c1w2.2 c1w3.2 [0, 1] []
    rfl rfl rfl rfl rfl rfl

end SecuML
